/-
Verification of the ScanChain provenance tracker against its specification.

The development shallowly embeds the Python source:
  * `services/blockchain_service.py` — `store_product_hash`, `get_product_hash`
    (the mock BSC ledger client);
  * `services/database_service.py` — `store_batch`, `get_batch`, `record_scan`,
    `_get_manufacturer_dashboard`, `search_products` over the JSON-file record
    store, modelled as an explicit `DBState` value threaded through each call;
  * `app.py` — the `/api/upload`, `/api/verify` and `/api/scan` handlers
    (`upload_file`, `verify_product`, `scan_product`).

Python dicts that carry dynamic keys (scan records) are modelled as
association lists with Python's literal-merge semantics (`dset`, `dmerge`:
later keys override earlier ones, first occurrence keeps its position).
`datetime.utcnow()` is modelled by an explicit `now : String` argument;
ISO-8601 timestamps compare lexicographically, as in the source's sort.
`hashlib.sha256` is implemented bit-for-bit on byte lists (`sha256`), and
`str.encode()` as UTF-8 (`strBytes`); the implementation is checked against
the standard test vectors below.
-/
import Mathlib

set_option maxRecDepth 10000

/-- Right rotation of a 32-bit word held in a `Nat`. -/
def rotr32 (n x : Nat) : Nat := ((x >>> n) ||| (x <<< (32 - n))) % 4294967296

/-- The SHA-256 round constants (FIPS 180-4 section 4.2.2, written in
decimal). -/
def sha256K : List Nat := [
  1116352408, 1899447441, 3049323471, 3921009573, 961987163,
  1508970993, 2453635748, 2870763221, 3624381080, 310598401,
  607225278, 1426881987, 1925078388, 2162078206, 2614888103,
  3248222580, 3835390401, 4022224774, 264347078, 604807628,
  770255983, 1249150122, 1555081692, 1996064986, 2554220882,
  2821834349, 2952996808, 3210313671, 3336571891, 3584528711,
  113926993, 338241895, 666307205, 773529912, 1294757372,
  1396182291, 1695183700, 1986661051, 2177026350, 2456956037,
  2730485921, 2820302411, 3259730800, 3345764771, 3516065817,
  3600352804, 4094571909, 275423344, 430227734, 506948616,
  659060556, 883997877, 958139571, 1322822218, 1537002063,
  1747873779, 1955562222, 2024104815, 2227730452, 2361852424,
  2428436474, 2756734187, 3204031479, 3329325298]

/-- The SHA-256 initial hash state (FIPS 180-4 section 5.3.3, in decimal). -/
def sha256H0 : List Nat :=
  [1779033703, 3144134277, 1013904242, 2773480762,
   1359893119, 2600822924, 528734635, 1541459225]

/-- Big-endian byte decomposition of `v` into `n` bytes. -/
def toBytesBE (n v : Nat) : List Nat :=
  (List.range n).map (fun i => (v >>> (8 * (n - 1 - i))) % 256)

/-- SHA-256 message padding: a 0x80 byte, zeros to 56 mod 64, then the bit length. -/
def sha256Pad (msg : List Nat) : List Nat :=
  let L := msg.length
  let padLen := (119 - (L % 64)) % 64
  msg ++ [128] ++ List.replicate padLen 0 ++ toBytesBE 8 (8 * L)

/-- Group bytes four at a time into big-endian 32-bit words. -/
def bytesToWords : List Nat → List Nat
  | a :: b :: c :: d :: rest => (a * 16777216 + b * 65536 + c * 256 + d) :: bytesToWords rest
  | _ => []

def smallSigma0 (x : Nat) : Nat := (rotr32 7 x) ^^^ (rotr32 18 x) ^^^ (x >>> 3)

def smallSigma1 (x : Nat) : Nat := (rotr32 17 x) ^^^ (rotr32 19 x) ^^^ (x >>> 10)

def bigSigma0 (x : Nat) : Nat := (rotr32 2 x) ^^^ (rotr32 13 x) ^^^ (rotr32 22 x)

def bigSigma1 (x : Nat) : Nat := (rotr32 6 x) ^^^ (rotr32 11 x) ^^^ (rotr32 25 x)

/-- Extend the 16 message-schedule words to 64. -/
def extendSchedule (w : List Nat) : List Nat :=
  (List.range 48).foldl (fun acc _ =>
    let n := acc.length
    acc ++ [(smallSigma1 (acc.getD (n - 2) 0) + acc.getD (n - 7) 0 +
             smallSigma0 (acc.getD (n - 15) 0) + acc.getD (n - 16) 0) % 4294967296]) w

/-- One SHA-256 compression round on the eight-word working state. -/
def sha256Round (k w : Nat) (st : List Nat) : List Nat :=
  match st with
  | [a, b, c, d, e, f, g, h] =>
    let t1 := (h + bigSigma1 e + ((e &&& f) ^^^ ((e ^^^ 4294967295) &&& g)) + k + w) % 4294967296
    let t2 := (bigSigma0 a + ((a &&& b) ^^^ (a &&& c) ^^^ (b &&& c))) % 4294967296
    [(t1 + t2) % 4294967296, a, b, c, (d + t1) % 4294967296, e, f, g]
  | _ => st

/-- Compress one 64-byte block into the running hash state. -/
def sha256Compress (h : List Nat) (block : List Nat) : List Nat :=
  let w := extendSchedule (bytesToWords block)
  let st := (List.range 64).foldl (fun st t => sha256Round (sha256K.getD t 0) (w.getD t 0) st) h
  List.zipWith (fun a b => (a + b) % 4294967296) h st

/-- Fold the compression function over `n` consecutive 64-byte blocks. -/
def sha256Blocks : Nat → List Nat → List Nat → List Nat
  | 0, h, _ => h
  | n + 1, h, msg => sha256Blocks n (sha256Compress h (msg.take 64)) (msg.drop 64)

/-- SHA-256 of a byte sequence, as the 32 digest bytes (models `hashlib.sha256(...).digest()`). -/
def sha256 (msg : List Nat) : List Nat :=
  let padded := sha256Pad msg
  ((sha256Blocks (padded.length / 64) sha256H0 padded).map (toBytesBE 4)).flatten

/-- Lowercase hex digit for a value below 16. -/
def hexDigitChar (n : Nat) : Char := Char.ofNat (if n < 10 then 48 + n else 87 + n)

/-- Two lowercase hex digits of one byte. -/
def byteToHex (b : Nat) : List Char := [hexDigitChar (b / 16), hexDigitChar (b % 16)]

/-- Lowercase hex string of a byte sequence (models `.hexdigest()`). -/
def bytesToHex (bs : List Nat) : String := String.mk ((bs.map byteToHex).flatten)

/-- UTF-8 encoding of one character (models Python `str.encode()`). -/
def utf8Bytes (c : Char) : List Nat :=
  let n := c.toNat
  if n < 128 then [n]
  else if n < 2048 then [192 + n / 64, 128 + n % 64]
  else if n < 65536 then [224 + n / 4096, 128 + (n / 64) % 64, 128 + n % 64]
  else [240 + n / 262144, 128 + (n / 4096) % 64, 128 + (n / 64) % 64, 128 + n % 64]

/-- UTF-8 bytes of a string (models Python `str.encode()`). -/
def strBytes (s : String) : List Nat := (s.data.map utf8Bytes).flatten

/-- Models `hashlib.sha256(s.encode()).hexdigest()`. -/
def sha256HexOfString (s : String) : String := bytesToHex (sha256 (strBytes s))

/-- Python per-character `str.lower()`. -/
def pyLower (s : String) : String := String.mk (s.data.map Char.toLower)

/-- Python `a or b` on an optional string with a string fallback: a present,
non-empty value wins, otherwise the fallback. -/
def pyOrS (a : Option String) (b : String) : String :=
  match a with
  | some v => if v = "" then b else v
  | none => b

/-- Python `str(x)` on an optional string, where an absent value is `None`. -/
def pyStrO : Option String → String
  | some v => v
  | none => "None"

/-- Boolean test that `needle` is a prefix of `hay` (character lists). -/
def listPrefixOf : List Char → List Char → Bool
  | [], _ => true
  | _ :: _, [] => false
  | a :: as, b :: bs => a == b && listPrefixOf as bs

/-- Boolean test that `needle` occurs as a contiguous substring of `hay`
(character lists); models Python's `needle in hay` on strings. -/
def pySubstr (needle : List Char) : List Char → Bool
  | [] => match needle with
    | [] => true
    | _ :: _ => false
  | c :: rest => listPrefixOf needle (c :: rest) || pySubstr needle rest

/-- Python `needle in hay` for strings. -/
def strContains (hay needle : String) : Bool := pySubstr needle.data hay.data

/-- A JSON-ish scalar value stored in a scan-record dict: a string or `None`. -/
inductive JVal where
  | s (v : String)
  | null
deriving DecidableEq

/-- A Python dict with string keys, as an association list in insertion order. -/
abbrev Dict := List (String × JVal)

/-- Set a key in a dict: an existing key keeps its position and gets the new
value, a new key is appended (Python dict-literal override semantics). -/
def dset : Dict → String → JVal → Dict
  | [], k, v => [(k, v)]
  | (k0, v0) :: rest, k, v =>
    if k0 = k then (k, v) :: rest else (k0, v0) :: dset rest k v

/-- Look a key up in a dict (Python `d.get(k)`). -/
def dlookup : Dict → String → Option JVal
  | [], _ => none
  | (k0, v0) :: rest, k => if k0 = k then some v0 else dlookup rest k

/-- Merge `upd` into `d`, later keys overriding (Python `{**d, **upd}`). -/
def dmerge (d : Dict) (upd : Dict) : Dict :=
  upd.foldl (fun acc kv => dset acc kv.1 kv.2) d

/-- Extract a string value with a default (used for the sort key
`x.get('timestamp', '')`). -/
def jStrD (o : Option JVal) (d : String) : String :=
  match o with
  | some (JVal.s v) => v
  | _ => d

/-- Lift an optional string into a `JVal`, with `None` for an absent value. -/
def optJ : Option String → JVal
  | some v => JVal.s v
  | none => JVal.null

/-- Python `a or b` on two optional strings, as the stored `JVal`:
a present non-empty `a` wins, otherwise the (possibly `None`) `b`. -/
def pyOrJ (a b : Option String) : JVal :=
  match a with
  | some v => if v = "" then optJ b else JVal.s v
  | none => optJ b

/-- Python `a or b` where `b` is already a plain string. -/
def pyOrJS (a : Option String) (b : String) : JVal :=
  match a with
  | some v => if v = "" then JVal.s b else JVal.s v
  | none => JVal.s b

/-- The `metadata` sub-document `store_batch` attaches to each batch and
product row (`database_service.py` lines 60-66). -/
structure BatchMeta where
  fileName : String
  fileSize : Nat
  mimeType : String
  uploadedBy : String
  uploadedAt : String
deriving DecidableEq

/-- The caller-supplied `data` dict of `store_batch` (the fields `app.py`
lines 258-275 put into `batch_data`). Absent keys are `none`. -/
structure BatchData where
  userId : Option String := none
  userEmail : Option String := none
  manufacturerId : Option String := none
  manufacturerName : Option String := none
  batchName : Option String := none
  productType : Option String := none
  description : Option String := none
  fileHash : Option String := none
  greenfieldUrl : Option String := none
  txHash : Option String := none
  contractAddress : Option String := none
  documentUrl : Option String := none
  fileName : Option String := none
  fileSize : Nat := 0
  mimeType : Option String := none
  uploadTimestamp : Option String := none
deriving DecidableEq

/-- A batch record as built by `store_batch` (`database_service.py` lines
53-67): the caller's `data` keys plus `batchId`, `createdAt`, `scans`,
`status`, `lastActivity` and `metadata`. `productName` is carried because
the dashboard reads `batch.get('productName')`; `store_batch` never sets it. -/
structure Batch where
  batchId : String
  userId : Option String := none
  userEmail : Option String := none
  manufacturerId : Option String := none
  manufacturerName : Option String := none
  batchName : Option String := none
  productName : Option String := none
  productType : Option String := none
  description : Option String := none
  fileHash : Option String := none
  greenfieldUrl : Option String := none
  txHash : Option String := none
  contractAddress : Option String := none
  documentUrl : Option String := none
  fileName : Option String := none
  fileSize : Nat := 0
  mimeType : Option String := none
  uploadTimestamp : Option String := none
  createdAt : String
  scans : List Dict
  status : String
  lastActivity : String
  metadata : BatchMeta
deriving DecidableEq

/-- A product-metadata row as built by `store_batch` (`database_service.py`
lines 79-93). -/
structure Product where
  productId : String
  userId : Option String := none
  userEmail : Option String := none
  batchName : Option String := none
  manufacturerName : Option String := none
  productType : Option String := none
  description : Option String := none
  fileHash : Option String := none
  greenfieldUrl : Option String := none
  txHash : Option String := none
  contractAddress : Option String := none
  createdAt : String
  metadata : BatchMeta
deriving DecidableEq

/-- The JSON files of `DatabaseService` (`batches.json`, `scans.json`,
`products.json`) as one explicit state value. -/
structure DBState where
  batches : List Batch
  lastBatchId : Nat
  scans : List Dict
  lastScanId : Nat
  products : List Product
  lastProductId : Nat
deriving DecidableEq

/-- The freshly initialized store (`_initialize_files`). -/
def dbInit : DBState :=
  { batches := [], lastBatchId := 0, scans := [], lastScanId := 0,
    products := [], lastProductId := 0 }

/-- `DatabaseService.get_batch`: first batch whose `batchId` matches. -/
def get_batch : List Batch → String → Option Batch
  | [], _ => none
  | b :: rest, bid => if b.batchId = bid then some b else get_batch rest bid

/-- The in-place update loop of `record_scan` (`database_service.py` lines
132-136): replace the first batch whose `batchId` matches and stop. -/
def replaceFirst : List Batch → String → Batch → List Batch
  | [], _, _ => []
  | b :: rest, bid, nb =>
    if b.batchId = bid then nb :: rest else b :: replaceFirst rest bid nb

/-- `DatabaseService.store_batch` (`database_service.py` lines 49-99): builds
the batch record and the product row, appends both, bumps both counters.
No duplicate check of any kind is performed on `batch_id`. -/
def store_batch (now : String) (batch_id : String) (data : BatchData) (s : DBState) :
    Batch × DBState :=
  let batch : Batch :=
    { batchId := batch_id
      userId := data.userId
      userEmail := data.userEmail
      manufacturerId := data.manufacturerId
      manufacturerName := data.manufacturerName
      batchName := data.batchName
      productName := none
      productType := data.productType
      description := data.description
      fileHash := data.fileHash
      greenfieldUrl := data.greenfieldUrl
      txHash := data.txHash
      contractAddress := data.contractAddress
      documentUrl := data.documentUrl
      fileName := data.fileName
      fileSize := data.fileSize
      mimeType := data.mimeType
      uploadTimestamp := data.uploadTimestamp
      createdAt := now
      scans := []
      status := "active"
      lastActivity := now
      metadata :=
        { fileName := data.fileName.getD "unknown"
          fileSize := data.fileSize
          mimeType := data.mimeType.getD "application/octet-stream"
          uploadedBy := data.userId.getD "unknown"
          uploadedAt := now } }
  let product : Product :=
    { productId := batch_id
      userId := data.userId
      userEmail := data.userEmail
      batchName := data.batchName
      manufacturerName := data.manufacturerName
      productType := data.productType
      description := data.description
      fileHash := data.fileHash
      greenfieldUrl := data.greenfieldUrl
      txHash := data.txHash
      contractAddress := data.contractAddress
      createdAt := now
      metadata := batch.metadata }
  (batch,
   { s with
     batches := s.batches ++ [batch]
     lastBatchId := s.lastBatchId + 1
     products := s.products ++ [product]
     lastProductId := s.lastProductId + 1 })

/-- The scan-record dict literal of `record_scan` (`database_service.py`
lines 119-125): `id`, `batchId`, then the caller's `scan_data` keys, then the
server-side `timestamp`, then `location` with its `'Unknown'` default —
later keys override earlier ones. -/
def mkScanRecord (lastScanId : Nat) (batch_id : String) (scan_data : Dict) (now : String) :
    Dict :=
  dset
    (dset (dmerge (dset (dset [] "id" (JVal.s (toString (lastScanId + 1)))) "batchId"
        (JVal.s batch_id)) scan_data)
      "timestamp" (JVal.s now))
    "location" ((dlookup scan_data "location").getD (JVal.s "Unknown"))

/-- `DatabaseService.record_scan` (`database_service.py` lines 111-145):
`None` when the batch does not exist (no state change); otherwise appends the
new scan record both to the batch's own `scans` list (replacing the first
matching batch) and to the global scan log, and bumps `lastScanId`. -/
def record_scan (now batch_id : String) (scan_data : Dict) (s : DBState) :
    Option Dict × DBState :=
  match get_batch s.batches batch_id with
  | none => (none, s)
  | some batch =>
    let scan_record := mkScanRecord s.lastScanId batch_id scan_data now
    let batch' := { batch with scans := batch.scans ++ [scan_record], lastActivity := now }
    (some scan_record,
     { s with
       batches := replaceFirst s.batches batch_id batch'
       scans := s.scans ++ [scan_record]
       lastScanId := s.lastScanId + 1 })

/-- Add to a Python `set` modelled as a duplicate-free list. -/
def insertNew (l : List String) (x : String) : List String :=
  if x ∈ l then l else l ++ [x]

/-- Accumulator of `_get_manufacturer_dashboard`: the manufacturer's batches,
the `manufacturer_batch_ids` set, the growing `recent_scans` list,
`total_scans`, and the `unique_suppliers` set. -/
structure MfgAcc where
  manufacturerBatches : List Batch
  batchIds : List String
  recentScans : List Dict
  totalScans : Nat
  uniqueSuppliers : List String
deriving DecidableEq

/-- Body of the legacy per-batch scan loop (`database_service.py` lines
192-200): enrich the scan with `batchId` and `productName`, count it, and
collect a truthy `supplierName` into the supplier set. -/
def mfg_legacy_scan (batch : Batch) (acc : MfgAcc) (scan : Dict) : MfgAcc :=
  let merged :=
    dset (dset scan "batchId" (JVal.s batch.batchId)) "productName"
      (pyOrJ batch.batchName batch.productName)
  { acc with
    recentScans := acc.recentScans ++ [merged]
    totalScans := acc.totalScans + 1
    uniqueSuppliers :=
      match dlookup scan "supplierName" with
      | some (JVal.s v) => if v = "" then acc.uniqueSuppliers else insertNew acc.uniqueSuppliers v
      | _ => acc.uniqueSuppliers }

/-- First pass of `_get_manufacturer_dashboard` (`database_service.py` lines
186-200): collect the manufacturer's batches by user id and count the scans
embedded in each owned batch. -/
def mfg_pass_batches (user_id : String) (batches : List Batch) : MfgAcc :=
  batches.foldl
    (fun acc batch =>
      if pyStrO batch.userId = user_id then
        let acc :=
          { acc with
            manufacturerBatches := acc.manufacturerBatches ++ [batch]
            batchIds := insertNew acc.batchIds batch.batchId }
        batch.scans.foldl (mfg_legacy_scan batch) acc
      else acc)
    { manufacturerBatches := [], batchIds := [], recentScans := [], totalScans := 0,
      uniqueSuppliers := [] }

/-- Second pass (`database_service.py` lines 203-205): owned product ids also
count as manufacturer batch ids. -/
def mfg_pass_products (user_id : String) (products : List Product) (ids : List String) :
    List String :=
  products.foldl
    (fun ids p => if pyStrO p.userId = user_id then insertNew ids p.productId else ids) ids

/-- First product row whose `productId` matches. -/
def find_product : List Product → String → Option Product
  | [], _ => none
  | p :: rest, pid => if p.productId = pid then some p else find_product rest pid

/-- The batch-or-product record resolved for a scan in the third dashboard
pass (`database_service.py` lines 210-221). -/
inductive BatchInfo where
  | fromBatch (b : Batch)
  | fromProduct (p : Product)
deriving DecidableEq

/-- Resolve `batch_info` for a scan: first matching manufacturer batch, then
first matching product row. -/
def findBatchInfo (mbatches : List Batch) (products : List Product) (bid : String) :
    Option BatchInfo :=
  match get_batch mbatches bid with
  | some b => some (BatchInfo.fromBatch b)
  | none =>
    match find_product products bid with
    | some p => some (BatchInfo.fromProduct p)
    | none => none

/-- `batch_info.get('batchName') or batch_info.get('productName', 'Unknown
Product')` of the third pass, with the `'Unknown Product'` fallback when no
record resolved. -/
def infoProductName : Option BatchInfo → JVal
  | some (BatchInfo.fromBatch b) => pyOrJS b.batchName (b.productName.getD "Unknown Product")
  | some (BatchInfo.fromProduct p) => pyOrJS p.batchName "Unknown Product"
  | none => JVal.s "Unknown Product"

/-- `batch_info.get('manufacturerName', user_name)` of the third pass, with
the user's name as fallback when no record resolved. -/
def infoManufacturerName (user_name : String) : Option BatchInfo → JVal
  | some (BatchInfo.fromBatch b) => JVal.s (b.manufacturerName.getD user_name)
  | some (BatchInfo.fromProduct p) => JVal.s (p.manufacturerName.getD user_name)
  | none => JVal.s user_name

/-- Third pass of `_get_manufacturer_dashboard` (`database_service.py` lines
208-230): every scan in the global scan log whose `batchId` belongs to the
manufacturer is enriched, counted again, and its supplier collected. -/
def mfg_pass_scans (user_name : String) (mbatches : List Batch) (products : List Product)
    (ids : List String) (scans : List Dict) (acc : MfgAcc) : MfgAcc :=
  scans.foldl
    (fun acc scan =>
      match dlookup scan "batchId" with
      | some (JVal.s bid) =>
        if bid ∈ ids then
          let info := findBatchInfo mbatches products bid
          let merged :=
            dset (dset scan "productName" (infoProductName info)) "manufacturerName"
              (infoManufacturerName user_name info)
          { acc with
            recentScans := acc.recentScans ++ [merged]
            totalScans := acc.totalScans + 1
            uniqueSuppliers :=
              match dlookup scan "supplierName" with
              | some (JVal.s v) =>
                if v = "" then acc.uniqueSuppliers else insertNew acc.uniqueSuppliers v
              | _ => acc.uniqueSuppliers }
        else acc
      | _ => acc)
    acc

/-- The sort key `x.get('timestamp', '')`. -/
def scanTimestampKey (d : Dict) : String := jStrD (dlookup d "timestamp") ""

/-- Lexicographic strict comparison of character lists by code point — the
comparison Python uses on strings. -/
def charListLt : List Char → List Char → Bool
  | [], [] => false
  | [], _ :: _ => true
  | _ :: _, [] => false
  | a :: as, b :: bs =>
    if a.toNat < b.toNat then true
    else if b.toNat < a.toNat then false
    else charListLt as bs

/-- Python's `a < b` on strings. -/
def strLtB (a b : String) : Bool := charListLt a.data b.data

/-- Stable descending insertion by timestamp: the new element goes after every
element with a greater-or-equal key, matching Python's stable
`sort(key=..., reverse=True)`. -/
def insertDescByTs (x : Dict) : List Dict → List Dict
  | [] => [x]
  | y :: ys => if strLtB (scanTimestampKey y) (scanTimestampKey x) then x :: y :: ys
               else y :: insertDescByTs x ys

/-- `recent_scans.sort(key=lambda x: x.get('timestamp', ''), reverse=True)`. -/
def sortByTsDesc (l : List Dict) : List Dict :=
  l.foldl (fun acc x => insertDescByTs x acc) []

/-- The manufacturer dashboard payload (`database_service.py` lines 235-246). -/
structure MDash where
  userId : String
  userName : String
  totalBatches : Nat
  totalScans : Nat
  totalSuppliers : Nat
  batches : List Batch
  recentScans : List Dict
  supplierList : List String
  allScans : List Dict
deriving DecidableEq

/-- `DatabaseService._get_manufacturer_dashboard` (`database_service.py` lines
177-246), with the loaded JSON files supplied as `s`. -/
def manufacturer_dashboard (user_id user_name : String) (s : DBState) : MDash :=
  let acc1 := mfg_pass_batches user_id s.batches
  let ids := mfg_pass_products user_id s.products acc1.batchIds
  let acc := mfg_pass_scans user_name acc1.manufacturerBatches s.products ids s.scans acc1
  let sorted := sortByTsDesc acc.recentScans
  { userId := user_id
    userName := user_name
    totalBatches := acc.manufacturerBatches.length
    totalScans := acc.totalScans
    totalSuppliers := acc.uniqueSuppliers.length
    batches := acc.manufacturerBatches
    recentScans := sorted.take 10
    supplierList := acc.uniqueSuppliers
    allScans := sorted }

/-- The `and`-guarded substring test on an optional field
(`database_service.py` lines 430-440): a missing or empty value never
matches. -/
def pyAndContains (field : Option String) (search_term : String) : Bool :=
  match field with
  | some v => if v = "" then false else strContains (pyLower v) search_term
  | none => false

/-- The per-product match of `search_products` (`database_service.py` lines
425-441): one field for a specific criteria, any of the four for the default
`'all'` branch. -/
def product_match (search_term criteria : String) (product : Product) : Bool :=
  if criteria = "productId" then strContains (pyLower product.productId) search_term
  else if criteria = "batchName" then pyAndContains product.batchName search_term
  else if criteria = "manufacturer" then pyAndContains product.manufacturerName search_term
  else if criteria = "productType" then pyAndContains product.productType search_term
  else
    strContains (pyLower product.productId) search_term ||
    pyAndContains product.batchName search_term ||
    pyAndContains product.manufacturerName search_term ||
    pyAndContains product.productType search_term

/-- `DatabaseService.search_products` (`database_service.py` lines 418-446). -/
def search_products (products : List Product) (query : String) (criteria : String) :
    List Product :=
  products.filter (product_match (pyLower query) criteria)

/-- `BlockchainService.store_product_hash` (`blockchain_service.py` lines
10-21): a pure function of its two arguments — the mock transaction hash
`"0x" + sha256(product_id + file_hash)`. Nothing is persisted anywhere. -/
def store_product_hash (product_id file_hash : String) : String :=
  "0x" ++ sha256HexOfString (product_id ++ file_hash)

/-- `BlockchainService.get_product_hash` (`blockchain_service.py` lines
23-33): always returns the fabricated mock hash
`sha256("mock_file_content_" + product_id)`, for every id; the `None` branch
is only reachable through an exception that the body cannot raise. -/
def get_product_hash (product_id : String) : Option String :=
  some (sha256HexOfString ("mock_file_content_" ++ product_id))

/-- The authenticated uploader (`user['id']`, `user['email']`) of
`/api/upload`. -/
structure UserRec where
  id : String
  email : String
deriving DecidableEq

/-- The optional form fields of `/api/upload` (`app.py` lines 224-228). -/
structure UploadForm where
  manufacturer_name : Option String := none
  batch_name : Option String := none
  product_type : Option String := none
  description : Option String := none
deriving DecidableEq

/-- The provenance fields of the `/api/upload` success response. -/
structure UploadResult where
  batchId : String
  fileHash : String
  txHash : String
deriving DecidableEq

/-- Python `s.replace(' ', '_')`. -/
def pyReplaceSpaceUnderscore (s : String) : String :=
  String.mk (s.data.map (fun c => if c = ' ' then '_' else c))

/-- The registration core of `/api/upload` (`app.py` lines 230-287): reject a
missing product id, hash the file bytes, obtain the mock ledger transaction
hash, and persist the batch via `store_batch`. The Greenfield upload is the
external Blob Store; its returned URI is the `greenfield_url` argument. -/
def upload_file (now : String) (user : UserRec) (product_id : String) (form : UploadForm)
    (file_data : List Nat) (file_name : String) (mime : Option String)
    (greenfield_url contract_address : String) (s : DBState) :
    Except String (UploadResult × DBState) :=
  if product_id = "" then Except.error "Product ID is required"
  else
    let file_hash := bytesToHex (sha256 file_data)
    let tx_hash := store_product_hash product_id file_hash
    let batch_data : BatchData :=
      { userId := some user.id
        userEmail := some user.email
        manufacturerId := some
          (match form.manufacturer_name with
           | some v => if v = "" then "unknown" else pyReplaceSpaceUnderscore (pyLower v)
           | none => "unknown")
        manufacturerName := some (pyOrS form.manufacturer_name "Unknown Manufacturer")
        batchName := some (pyOrS form.batch_name product_id)
        productType := some (pyOrS form.product_type "Unknown")
        description := some (pyOrS form.description "")
        fileHash := some file_hash
        greenfieldUrl := some greenfield_url
        txHash := some tx_hash
        contractAddress := some contract_address
        documentUrl := some greenfield_url
        fileName := some file_name
        fileSize := file_data.length
        mimeType := mime
        uploadTimestamp := some now }
    let bs := store_batch now product_id batch_data s
    Except.ok ({ batchId := product_id, fileHash := file_hash, txHash := tx_hash }, bs.2)

/-- The `/api/verify` response (`app.py` lines 342-371): the early
`Product not found on blockchain` reply when the ledger value is falsy,
otherwise the full comparison payload. -/
inductive VerifyResult where
  | notFound (productId : String)
  | ok (isVerified : Bool) (productId storedHash currentHash message : String)
deriving DecidableEq

/-- The JSON keys of the successful `/api/verify` response (`app.py` lines
364-371) — the complete, closed key set of the reply. -/
def verifyResponseKeys : List String :=
  ["success", "isVerified", "productId", "storedHash", "currentHash", "message"]

/-- `verify_product` (`app.py` lines 322-378): fetch the stored hash from the
ledger client, hash the blob when a URI was supplied (the downloaded bytes
are the `blob` argument), otherwise reuse the stored hash, and compare. -/
def verify_product (product_id : String) (blob : Option (List Nat)) : VerifyResult :=
  match get_product_hash product_id with
  | none => VerifyResult.notFound product_id
  | some stored =>
    if stored = "" then VerifyResult.notFound product_id
    else
      let current :=
        match blob with
        | some bytes => bytesToHex (sha256 bytes)
        | none => stored
      VerifyResult.ok (stored == current) product_id stored current
        (if stored == current then "Product is authentic" else "Product has been tampered with")

/-- The `isVerified` flag of a verify response (`False` on the
product-not-found reply, as in the source). -/
def vIsVerified : VerifyResult → Bool
  | VerifyResult.ok b _ _ _ _ => b
  | VerifyResult.notFound _ => false

/-- `scan_product` (`app.py` lines 381-453): reject a missing QR payload or
supplier name, reject an unknown batch, otherwise record the scan with the
request context through `record_scan`. `parsed_product_id` is
`parsed_qr.get('productId')`; JSON decoding itself is outside the model. -/
def scan_product (now : String) (qr_data supplier_name : String)
    (supplier_location : Option String) (parsed_product_id : Option String)
    (ip_address : String) (user_agent user_id scanner_username : Option String)
    (s : DBState) : Except String Dict × DBState :=
  if qr_data = "" ∨ supplier_name = "" then
    (Except.error "QR data and supplier name are required", s)
  else
    match parsed_product_id with
    | none => (Except.error "Batch not found", s)
    | some batch_id =>
      match get_batch s.batches batch_id with
      | none => (Except.error "Batch not found", s)
      | some _ =>
        let scan_data : Dict :=
          [("supplierName", JVal.s supplier_name),
           ("supplierLocation", JVal.s (pyOrS supplier_location "Unknown")),
           ("scanType", JVal.s "QR_SCAN"),
           ("ipAddress", JVal.s ip_address),
           ("userAgent", optJ user_agent),
           ("userId", optJ user_id),
           ("scannerUsername", optJ scanner_username)]
        match record_scan now batch_id scan_data s with
        | (some scan_record, s2) => (Except.ok scan_record, s2)
        | (none, s2) => (Except.error "Scan recording failed", s2)

/-- Success test on an upload outcome. -/
def exceptIsOk : Except String (UploadResult × DBState) → Bool
  | Except.ok _ => true
  | Except.error _ => false

/-- Number of batches in the store carrying a given `batchId`. -/
def countBatches : List Batch → String → Nat
  | [], _ => 0
  | b :: rest, bid => (if b.batchId = bid then 1 else 0) + countBatches rest bid

/-- Spec-side predicate for claim C9: the query is a case-insensitive
substring of the given optional field's value. -/
def claimFieldMatch (q : String) (field : Option String) : Bool :=
  match field with
  | some v => strContains (pyLower v) (pyLower q)
  | none => false

/-- Spec-side predicate for claim C9 with `field="all"`: the query is a
case-insensitive substring of at least one of the four searchable fields. -/
def claimAllMatch (q : String) (p : Product) : Bool :=
  strContains (pyLower p.productId) (pyLower q) ||
  claimFieldMatch q p.batchName ||
  claimFieldMatch q p.manufacturerName ||
  claimFieldMatch q p.productType

/-- Boolean check that a list of timestamps is weakly descending. -/
def timestampsDescending : List String → Bool
  | [] => true
  | [_] => true
  | a :: b :: rest => (b == a || strLtB b a) && timestampsDescending (b :: rest)

/-- Batch metadata used by the concrete scenarios below. -/
def c4data1 : BatchData :=
  { userId := some "1", userEmail := some "m@x.com", manufacturerName := some "Mfg One",
    batchName := some "Batch One", productType := some "Food", fileHash := some "h1" }

/-- Second batch of the dashboard scenario. -/
def c4data2 : BatchData :=
  { userId := some "1", userEmail := some "m@x.com", manufacturerName := some "Mfg One",
    batchName := some "Batch Two", productType := some "Food", fileHash := some "h2" }

/-- Store with the two batches B1 and B2 owned by manufacturer user "1". -/
def c4s2 : DBState :=
  (store_batch "2024-01-01T09:00:00" "B2" c4data2
    (store_batch "2024-01-01T08:00:00" "B1" c4data1 dbInit).2).2

/-- After supplier S1 scans B1. -/
def c4s3 : DBState :=
  (scan_product "2024-01-02T08:00:00" "qr1" "S1" (some "L1") (some "B1") "ip1" none none none
    c4s2).2

/-- After supplier S2 scans B1. -/
def c4s4 : DBState :=
  (scan_product "2024-01-02T09:00:00" "qr2" "S2" (some "L2") (some "B1") "ip2" none none none
    c4s3).2

/-- After supplier S1 scans B1 again. -/
def c4s5 : DBState :=
  (scan_product "2024-01-02T10:00:00" "qr3" "S1" (some "L3") (some "B1") "ip3" none none none
    c4s4).2

/-- After supplier S2 scans B2: the full scenario of the dashboard claim. -/
def c4s6 : DBState :=
  (scan_product "2024-01-02T11:00:00" "qr4" "S2" (some "L4") (some "B2") "ip4" none none none
    c4s5).2

/-- The manufacturer dashboard computed on the scenario. -/
def c4dash : MDash := manufacturer_dashboard "1" "Mfg One" c4s6

/-- Input data of the duplicate-registration scenario. -/
def c2data : BatchData := { userId := some "1", batchName := some "Dup Batch" }

/-- Store after the first registration of batch id B1. -/
def c2s1 : DBState := (store_batch "2024-01-01T00:00:00" "B1" c2data dbInit).2

/-- The batch record produced by the first registration. -/
def c2b1 : Batch := (store_batch "2024-01-01T00:00:00" "B1" c2data dbInit).1

/-- Outcome of registering the same batch id a second time. -/
def c2res2 : Batch × DBState := store_batch "2024-01-02T00:00:00" "B1" c2data c2s1

/-- Input data of the scan witnesses' store. -/
def wData : BatchData := { userId := some "9", batchName := some "W Batch" }

/-- Witness store holding one batch B1. -/
def wState : DBState := (store_batch "2024-03-01T00:00:00" "B1" wData dbInit).2

/-- The batch stored in `wState`. -/
def wBatch : Batch := (store_batch "2024-03-01T00:00:00" "B1" wData dbInit).1

/-- Witness store after one recorded scan on B1. -/
def wStateScanned : DBState :=
  (record_scan "2024-03-02T00:00:00" "B1" [("supplierName", JVal.s "S0")] wState).2

/-- The batch B1 as stored in `wStateScanned` (it carries one scan). -/
def wBatch2 : Batch := (get_batch wStateScanned.batches "B1").getD wBatch

/-- The scan record produced in the server-timestamp witness, where the client
smuggles a `timestamp` key into the scan context. -/
def c7rec : Dict :=
  mkScanRecord wState.lastScanId "B1" [("timestamp", JVal.s "1999-01-01T00:00:00")]
    "2024-03-02T12:00:00"

/-- The uploader of the round-trip scenario. -/
def c1user : UserRec := { id := "1", email := "m@x.com" }

/-- The (empty) upload form of the round-trip scenario. -/
def c1form : UploadForm := {}

/-- The hash the mock ledger fabricates for batch id B1. -/
def c1stored : String := sha256HexOfString ("mock_file_content_" ++ "B1")

/-- The hash the mock ledger fabricates for product id P1. -/
def c5stored : String := sha256HexOfString ("mock_file_content_" ++ "P1")

/-- A stored product row for the search witness. -/
def c9prod : Product :=
  { productId := "LOT-77", userId := some "1", batchName := some "Aspirin Lot",
    manufacturerName := some "Acme Pharma", productType := some "Drug",
    createdAt := "2024-01-01T00:00:00",
    metadata := { fileName := "f", fileSize := 1, mimeType := "m", uploadedBy := "1",
                  uploadedAt := "2024-01-01T00:00:00" } }

/-- Looking up the key just set returns the new value. -/
theorem dlookup_dset_self (d : Dict) (k : String) (v : JVal) :
    dlookup (dset d k v) k = some v := by
  induction d with
  | nil => simp [dset, dlookup]
  | cons kv rest ih =>
    obtain ⟨k0, v0⟩ := kv
    by_cases h : k0 = k
    · simp [dset, dlookup, h]
    · simp [dset, dlookup, h, ih]

/-- Setting a different key leaves a lookup unchanged. -/
theorem dlookup_dset_ne (d : Dict) (k k2 : String) (v : JVal) (h : k2 ≠ k) :
    dlookup (dset d k2 v) k = dlookup d k := by
  induction d with
  | nil => simp [dset, dlookup, h]
  | cons kv rest ih =>
    obtain ⟨k0, v0⟩ := kv
    by_cases h0 : k0 = k2
    · subst h0
      simp [dset, dlookup, h]
    · by_cases h1 : k0 = k
      · simp [dset, dlookup, h0, h1, Ne.symm h]
      · simp [dset, dlookup, h0, h1, ih]

/-- A batch found by `get_batch` carries the id it was found under. -/
theorem get_batch_batchId (bs : List Batch) (bid : String) (b : Batch)
    (h : get_batch bs bid = some b) : b.batchId = bid := by
  induction bs with
  | nil => simp [get_batch] at h
  | cons x rest ih =>
    by_cases hx : x.batchId = bid
    · simp [get_batch, hx] at h
      subst h
      exact hx
    · simp [get_batch, hx] at h
      exact ih h

/-- Replacing the first matching batch makes `get_batch` return the
replacement, provided the replacement keeps the id. -/
theorem get_batch_replaceFirst (bs : List Batch) (bid : String) (b nb : Batch)
    (h : get_batch bs bid = some b) (hnb : nb.batchId = bid) :
    get_batch (replaceFirst bs bid nb) bid = some nb := by
  induction bs with
  | nil => simp [get_batch] at h
  | cons x rest ih =>
    by_cases hx : x.batchId = bid
    · simp [replaceFirst, hx, get_batch, hnb]
    · simp [replaceFirst, hx, get_batch] at h ⊢
      exact ih h

/-- Appending to the store does not change which batch `get_batch` finds. -/
theorem get_batch_append_left (bs l2 : List Batch) (bid : String) (b : Batch)
    (h : get_batch bs bid = some b) : get_batch (bs ++ l2) bid = some b := by
  induction bs with
  | nil => simp [get_batch] at h
  | cons x rest ih =>
    by_cases hx : x.batchId = bid
    · simp [get_batch, hx] at h ⊢
      exact h
    · simp [get_batch, hx] at h ⊢
      exact ih h

/-- `countBatches` distributes over append. -/
theorem countBatches_append (l1 l2 : List Batch) (bid : String) :
    countBatches (l1 ++ l2) bid = countBatches l1 bid + countBatches l2 bid := by
  induction l1 with
  | nil => simp [countBatches]
  | cons x rest ih => simp [countBatches, ih]; omega

/-- Taking the original length off an appended list gives the original list. -/
theorem take_length_append {α : Type} (l : List α) (x : α) :
    (l ++ [x]).take l.length = l := by
  induction l with
  | nil => simp
  | cons a as ih => simp [ih]

/-- The empty needle occurs in every haystack. -/
theorem pySubstr_nil (hay : List Char) : pySubstr [] hay = true := by
  induction hay with
  | nil => rfl
  | cons c rest ih => simp [pySubstr, listPrefixOf, ih]

/-- A needle with empty character data occurs in every haystack. -/
theorem strContains_nil_needle (hay nd : String) (h : nd.data = []) :
    strContains hay nd = true := by
  unfold strContains
  rw [h]
  exact pySubstr_nil hay.data

/-- A non-empty needle never occurs in an empty haystack. -/
theorem strContains_of_empty_hay (hay nd : String) (hhay : hay.data = [])
    (hnd : nd.data ≠ []) : strContains hay nd = false := by
  unfold strContains
  rw [hhay]
  cases hd : nd.data with
  | nil => exact absurd hd hnd
  | cons c cs => rfl

/-- Lowercasing maps character data through `Char.toLower`. -/
theorem pyLower_data (s : String) : (pyLower s).data = s.data.map Char.toLower := rfl

/-- For a non-empty query, the source's `and`-guarded substring test agrees
with the plain substring predicate of the claim. -/
theorem pyAndContains_eq_claimField (q : String) (hq : q.data ≠ []) (f : Option String) :
    pyAndContains f (pyLower q) = claimFieldMatch q f := by
  cases f with
  | none => rfl
  | some v =>
    have hpa : pyAndContains (some v) (pyLower q) =
        (if v = "" then false else strContains (pyLower v) (pyLower q)) := rfl
    have hcf : claimFieldMatch q (some v) = strContains (pyLower v) (pyLower q) := rfl
    rw [hpa, hcf]
    by_cases hv : v = ""
    · subst hv
      have hlq : (pyLower q).data ≠ [] := by
        rw [pyLower_data]
        simp [hq]
      rw [if_pos rfl]
      rw [strContains_of_empty_hay (pyLower "") (pyLower q) rfl hlq]
    · rw [if_neg hv]

/-- A successful `and`-guarded substring test implies the claim's predicate. -/
theorem pyAndContains_true_claimField (q : String) (f : Option String)
    (h : pyAndContains f (pyLower q) = true) : claimFieldMatch q f = true := by
  cases f with
  | none => simp [pyAndContains] at h
  | some v =>
    have hpa : pyAndContains (some v) (pyLower q) =
        (if v = "" then false else strContains (pyLower v) (pyLower q)) := rfl
    rw [hpa] at h
    by_cases hv : v = ""
    · rw [if_pos hv] at h
      exact absurd h (by simp)
    · rw [if_neg hv] at h
      exact h

/-- On the `'all'` branch the source's per-product match coincides exactly
with the claim's four-way disjunction. -/
theorem product_match_all_eq (q : String) (p : Product) :
    product_match (pyLower q) "all" p = claimAllMatch q p := by
  have hstep : product_match (pyLower q) "all" p =
      (strContains (pyLower p.productId) (pyLower q) ||
       pyAndContains p.batchName (pyLower q) ||
       pyAndContains p.manufacturerName (pyLower q) ||
       pyAndContains p.productType (pyLower q)) := rfl
  rw [hstep]
  by_cases hq : q.data = []
  · have h1 : ∀ hay : String, strContains hay (pyLower q) = true := by
      intro hay
      apply strContains_nil_needle
      rw [pyLower_data, hq]
      rfl
    unfold claimAllMatch
    rw [h1]
    simp
  · unfold claimAllMatch
    rw [pyAndContains_eq_claimField q hq, pyAndContains_eq_claimField q hq,
        pyAndContains_eq_claimField q hq]

/-- SHA-256 sanity: the standard empty-input test vector. -/
theorem sha256_vector_empty :
    sha256HexOfString "" =
      "e3b0c44298fc1c149afbf4c8996fb92427ae41e4649b934ca495991b7852b855" := by decide

/-- SHA-256 sanity: the standard `"abc"` test vector. -/
theorem sha256_vector_abc :
    sha256HexOfString "abc" =
      "ba7816bf8f01cfea414140de5dae2223b00361a396177a9cb410ff61f20015ad" := by decide

/-- SHA-256 sanity: the `b"hello"` digest quoted in the specification's
scenario (section 8). -/
theorem sha256_vector_hello :
    sha256HexOfString "hello" =
      "2cf24dba5fb0a30e26e83b2ac5b9e29e1b161e5c1fa7425e73043362938b9824" := by decide

/-- Claim C1 (counterexample): register artifact `b"hello"` under the fresh
batch id B1 on an empty store — the registration succeeds — then verify B1
against a blob bit-identical to the registered artifact. The claim says
`isVerified = true`; the code returns `false`, because `verify` compares the
blob's hash against the fabricated mock ledger hash
`sha256("mock_file_content_B1")`, not against the hash registered for B1. -/
theorem C1_counterexample :
    exceptIsOk (upload_file "2024-01-01T00:00:00" c1user "B1" c1form (strBytes "hello")
      "cert.pdf" none "gf://bucket/obj" "0xC" dbInit) = true ∧
    vIsVerified (verify_product "B1" (some (strBytes "hello"))) = false := by decide

/-- Claim C1 (amended): registration always succeeds for a non-empty batch id,
but has no influence on verification: for every registered artifact `A`,
store `s` and fetched blob, `verify` returns
`isVerified = (storedHash == sha256(blob))` where `storedHash` is the mock
ledger value for the batch id — the artifact `A` and the record store never
enter the comparison. -/
theorem C1_amended (now : String) (user : UserRec) (pid : String) (form : UploadForm)
    (A blob : List Nat) (fname : String) (mime : Option String) (gurl caddr : String)
    (s : DBState) (sh : String)
    (h1 : get_product_hash pid = some sh) (h2 : sh ≠ "") (h3 : pid ≠ "") :
    exceptIsOk (upload_file now user pid form A fname mime gurl caddr s) = true ∧
    verify_product pid (some blob) =
      VerifyResult.ok (sh == bytesToHex (sha256 blob)) pid sh (bytesToHex (sha256 blob))
        (if sh == bytesToHex (sha256 blob) then "Product is authentic"
         else "Product has been tampered with") := by
  constructor
  · simp [upload_file, h3, exceptIsOk]
  · simp [verify_product, h1, h2]

/-- Claim C1 (witness): the amended statement instantiated at batch id B1,
artifact `b"hello"` and blob `b"hello!"` on the empty store. -/
theorem C1_witness :
    exceptIsOk (upload_file "2024-01-01T00:00:00" c1user "B1" c1form (strBytes "hello")
      "cert.pdf" none "gf://bucket/obj" "0xC" dbInit) = true ∧
    verify_product "B1" (some (strBytes "hello!")) =
      VerifyResult.ok (c1stored == bytesToHex (sha256 (strBytes "hello!"))) "B1" c1stored
        (bytesToHex (sha256 (strBytes "hello!")))
        (if c1stored == bytesToHex (sha256 (strBytes "hello!")) then "Product is authentic"
         else "Product has been tampered with") :=
  C1_amended "2024-01-01T00:00:00" c1user "B1" c1form (strBytes "hello") (strBytes "hello!")
    "cert.pdf" none "gf://bucket/obj" "0xC" dbInit c1stored rfl (by decide) (by decide)

/-- Claim C2 (counterexample): after storing batch id B1, a second
`store_batch` with the same id does not fail with `DuplicateBatchId` — it
returns a batch record and leaves two stored batches carrying id B1. -/
theorem C2_counterexample :
    countBatches c2res2.2.batches "B1" = 2 ∧ c2res2.1.batchId = "B1" := by decide

/-- Claim C2 (amended): re-registering an existing batch id succeeds and
appends a second record: the count of records under the id grows by one,
while `get_batch` still returns the first record, unchanged. -/
theorem C2_amended (s : DBState) (bid now : String) (d : BatchData) (b : Batch)
    (h : get_batch s.batches bid = some b) :
    get_batch ((store_batch now bid d s).2).batches bid = some b ∧
    countBatches ((store_batch now bid d s).2).batches bid =
      countBatches s.batches bid + 1 ∧
    ((store_batch now bid d s).1).batchId = bid := by
  refine ⟨?_, ?_, ?_⟩
  · exact get_batch_append_left s.batches _ bid b h
  · rw [show ((store_batch now bid d s).2).batches = s.batches ++ [(store_batch now bid d s).1]
        from rfl]
    rw [countBatches_append]
    simp [countBatches, store_batch]
  · simp [store_batch]

/-- Claim C2 (witness): the amended statement instantiated at the concrete
duplicate-registration scenario. -/
theorem C2_witness :
    get_batch ((store_batch "2024-01-02T00:00:00" "B1" c2data c2s1).2).batches "B1" =
      some c2b1 ∧
    countBatches ((store_batch "2024-01-02T00:00:00" "B1" c2data c2s1).2).batches "B1" =
      countBatches c2s1.batches "B1" + 1 ∧
    ((store_batch "2024-01-02T00:00:00" "B1" c2data c2s1).1).batchId = "B1" :=
  C2_amended c2s1 "B1" "2024-01-02T00:00:00" c2data c2b1 (by decide)

/-- Claim C3 (counterexample): the ledger lookup for a batch id that was never
anchored does not return `NotFound` — it returns a fabricated hash value. -/
theorem C3_counterexample : get_product_hash "never-anchored-batch" ≠ none := by
  simp [get_product_hash]

/-- Claim C3 (amended): for every batch id — anchored or not — the ledger
client returns the fabricated deterministic mock hash
`sha256("mock_file_content_" + id)`, never `NotFound`. -/
theorem C3_amended (product_id : String) :
    get_product_hash product_id =
      some (sha256HexOfString ("mock_file_content_" ++ product_id)) ∧
    get_product_hash product_id ≠ none :=
  ⟨rfl, by simp [get_product_hash]⟩

/-- Claim C4 (counterexample): in the scenario of the claim — manufacturer
user "1" owns B1 and B2, suppliers S1, S2, S1 scan B1 and S2 scans B2 — the
dashboard does not report `totalScans = 3`. -/
theorem C4_counterexample : c4dash.totalScans ≠ 3 := by decide

/-- Claim C4 (amended): in that scenario the dashboard reports
`totalScans = 8`: each of the four scan events is counted twice, once from
the batch-embedded copy and once from the global scan log. `totalSuppliers`
is 2 as claimed, and `recentScans` is ordered newest-first by timestamp. -/
theorem C4_amended :
    c4dash.totalScans = 8 ∧ c4dash.totalSuppliers = 2 ∧
    timestampsDescending (c4dash.recentScans.map scanTimestampKey) = true := by decide

/-- Claim C5 (counterexample): the weak verification path (no blob URI) does
return `currentHash = storedHash` and `isVerified = true`, but the response
carries no `verifiedAgainstSource` label at all — the claimed
`verifiedAgainstSource = false` marker does not exist in the result. -/
theorem C5_counterexample :
    "verifiedAgainstSource" ∉ verifyResponseKeys ∧
    verify_product "P1" none =
      VerifyResult.ok true "P1" c5stored c5stored "Product is authentic" := by
  constructor
  · decide
  · decide

/-- Claim C5 (amended): whenever the ledger lookup yields a non-empty stored
hash, verifying without a blob URI returns `currentHash = storedHash` and
`isVerified = true`, and the response's key set contains no
`verifiedAgainstSource` field distinguishing this weak path. -/
theorem C5_amended (pid sh : String) (h1 : get_product_hash pid = some sh) (h2 : sh ≠ "") :
    verify_product pid none = VerifyResult.ok true pid sh sh "Product is authentic" ∧
    "verifiedAgainstSource" ∉ verifyResponseKeys := by
  constructor
  · simp [verify_product, h1, h2]
  · decide

/-- Claim C5 (witness): the amended statement instantiated at product id P1. -/
theorem C5_witness :
    verify_product "P1" none =
      VerifyResult.ok true "P1" c5stored c5stored "Product is authentic" ∧
    "verifiedAgainstSource" ∉ verifyResponseKeys :=
  C5_amended "P1" c5stored rfl (by decide)

/-- Claim C6: a successful `record_scan` on an existing batch extends that
batch's scan list by exactly one entry and preserves every prior entry
(the old list is literally the prefix of the new one). -/
theorem C6_append_only (s : DBState) (bid : String) (sd : Dict) (now : String) (b : Batch)
    (h : get_batch s.batches bid = some b) :
    ∃ r b2, (record_scan now bid sd s).1 = some r ∧
      get_batch ((record_scan now bid sd s).2).batches bid = some b2 ∧
      b2.scans.length = b.scans.length + 1 ∧
      b2.scans.take b.scans.length = b.scans := by
  refine ⟨mkScanRecord s.lastScanId bid sd now,
    { b with scans := b.scans ++ [mkScanRecord s.lastScanId bid sd now], lastActivity := now },
    ?_, ?_, ?_, ?_⟩
  · simp [record_scan, h]
  · simp only [record_scan, h]
    exact get_batch_replaceFirst s.batches bid b _ h (get_batch_batchId s.batches bid b h)
  · simp
  · exact take_length_append b.scans _

/-- Claim C6 (witness): appending a scan to the already-scanned witness store
grows the batch's scan list from one entry to two, keeping the first. -/
theorem C6_witness :
    ∃ r b2, (record_scan "2024-03-03T00:00:00" "B1" [] wStateScanned).1 = some r ∧
      get_batch ((record_scan "2024-03-03T00:00:00" "B1" [] wStateScanned).2).batches "B1" =
        some b2 ∧
      b2.scans.length = wBatch2.scans.length + 1 ∧
      b2.scans.take wBatch2.scans.length = wBatch2.scans :=
  C6_append_only wStateScanned "B1" [] "2024-03-03T00:00:00" wBatch2 (by decide)

/-- Claim C7: every successful `record_scan` stamps the server-side timestamp:
the stored record's `timestamp` key holds the server clock value, whatever
the client put into the scan context (including a client `timestamp` key). -/
theorem C7_server_timestamp (s : DBState) (bid now : String) (sd : Dict) (r : Dict)
    (h : (record_scan now bid sd s).1 = some r) :
    dlookup r "timestamp" = some (JVal.s now) := by
  unfold record_scan at h
  cases hg : get_batch s.batches bid with
  | none =>
    rw [hg] at h
    simp at h
  | some batch =>
    rw [hg] at h
    simp at h
    subst h
    unfold mkScanRecord
    rw [dlookup_dset_ne _ _ _ _ (by decide)]
    exact dlookup_dset_self _ _ _

/-- Claim C7 (witness): recording a scan whose context smuggles a client
`timestamp` of 1999 still yields the server timestamp in the stored record. -/
theorem C7_witness : dlookup c7rec "timestamp" = some (JVal.s "2024-03-02T12:00:00") :=
  C7_server_timestamp wState "B1" "2024-03-02T12:00:00"
    [("timestamp", JVal.s "1999-01-01T00:00:00")] c7rec (by decide)

/-- Claim C8: scan validation fails cleanly. An empty supplier name is
rejected before anything is written; a batch id that does not resolve makes
`record_scan` return `None` with the state untouched, and makes the endpoint
answer `Batch not found` with the state untouched. -/
theorem C8_scan_validation (now qr sn : String) (sl : Option String) (pid : Option String)
    (ip : String) (ua uid sc : Option String) (s : DBState) (sd : Dict) (bid : String) :
    (sn = "" → scan_product now qr sn sl pid ip ua uid sc s =
        (Except.error "QR data and supplier name are required", s)) ∧
    (get_batch s.batches bid = none → record_scan now bid sd s = (none, s)) ∧
    (qr ≠ "" → sn ≠ "" → (∀ b2, pid = some b2 → get_batch s.batches b2 = none) →
      scan_product now qr sn sl pid ip ua uid sc s = (Except.error "Batch not found", s)) := by
  refine ⟨?_, ?_, ?_⟩
  · intro h
    unfold scan_product
    rw [if_pos (Or.inr h)]
  · intro h
    unfold record_scan
    rw [h]
  · intro h1 h2 h3
    unfold scan_product
    rw [if_neg (fun hor => hor.elim h1 h2)]
    cases pid with
    | none => rfl
    | some b2 =>
      have hb : get_batch s.batches b2 = none := h3 b2 rfl
      simp only [hb]

/-- Claim C8 (witness): the empty-actor rejection instantiated on the witness
store, and the missing-batch branches instantiated at an id not in it. -/
theorem C8_witness :
    scan_product "2024-03-04T00:00:00" "qrpayload" "" none (some "B1") "127.0.0.1" none none
      none wState = (Except.error "QR data and supplier name are required", wState) ∧
    record_scan "2024-03-04T00:00:00" "GHOST" [] wState = (none, wState) ∧
    scan_product "2024-03-04T00:00:00" "qrpayload" "S1" none (some "GHOST") "127.0.0.1" none
      none none wState = (Except.error "Batch not found", wState) :=
  ⟨(C8_scan_validation "2024-03-04T00:00:00" "qrpayload" "" none (some "B1") "127.0.0.1"
      none none none wState [] "B1").1 rfl,
   (C8_scan_validation "2024-03-04T00:00:00" "qrpayload" "S1" none (some "GHOST") "127.0.0.1"
      none none none wState [] "GHOST").2.1 (by decide),
   (C8_scan_validation "2024-03-04T00:00:00" "qrpayload" "S1" none (some "GHOST") "127.0.0.1"
      none none none wState [] "GHOST").2.2 (by decide) (by decide)
     (fun b2 hb => by
        cases hb
        decide)⟩

/-- Claim C9: search semantics. With `field = "all"` the result is exactly
the products for which the query is a case-insensitive substring of at least
one of the id, batch name, manufacturer name or product type; with a specific
field, every returned product matches the query against that field. -/
theorem C9_search_semantics (q : String) (ps : List Product) :
    search_products ps q "all" = ps.filter (claimAllMatch q) ∧
    (∀ p, p ∈ search_products ps q "productId" →
        strContains (pyLower p.productId) (pyLower q) = true) ∧
    (∀ p, p ∈ search_products ps q "batchName" → claimFieldMatch q p.batchName = true) ∧
    (∀ p, p ∈ search_products ps q "manufacturer" →
        claimFieldMatch q p.manufacturerName = true) ∧
    (∀ p, p ∈ search_products ps q "productType" → claimFieldMatch q p.productType = true) := by
  refine ⟨?_, ?_, ?_, ?_, ?_⟩
  · unfold search_products
    congr 1
    funext p
    exact product_match_all_eq q p
  · intro p hp
    unfold search_products at hp
    exact (List.mem_filter.mp hp).2
  · intro p hp
    unfold search_products at hp
    exact pyAndContains_true_claimField q p.batchName (List.mem_filter.mp hp).2
  · intro p hp
    unfold search_products at hp
    exact pyAndContains_true_claimField q p.manufacturerName (List.mem_filter.mp hp).2
  · intro p hp
    unfold search_products at hp
    exact pyAndContains_true_claimField q p.productType (List.mem_filter.mp hp).2

/-- Claim C9 (witness): searching the one-product store for "aspirin" in the
batch-name field finds the product, whose batch name contains the query
case-insensitively. -/
theorem C9_witness : claimFieldMatch "aspirin" c9prod.batchName = true :=
  (C9_search_semantics "aspirin" [c9prod]).2.2.1 c9prod (by decide)

/-- Claim C10: the ledger anchor is a pure deterministic function of its two
arguments — it takes no state of any kind — and its value is exactly `"0x"`
followed by the SHA-256 hex digest of the batch id concatenated with the
content hash. -/
theorem C10_anchor_deterministic (product_id file_hash : String) :
    store_product_hash product_id file_hash =
      "0x" ++ bytesToHex (sha256 (strBytes (product_id ++ file_hash))) := rfl
